import Mathlib

/-!
Shallow embedding of the NewsPulse article-discussion subsystem
(`src/news_pulse_app/app.py`: `fetch_full_article`, `ask_question`, the
Send-button orchestration in `render_article_card`; and
`src/news_pulse_app/db.py`: `create_conversation`, `save_message`).

Python strings are modelled by `String`; Python slicing `s[:n]` operates on
code points and is modelled by `List.take` on `String.data`.  Exceptions are
modelled by `Except String`: an operation that may raise returns
`Except String α`, a Python `try/except` is a `match` on that value, and a
function whose every path ends in `return` has an `.ok` result on every path.
The external completion service (`client.models.generate_content`) is an
oracle `Nat → Except String String` mapping the index of the outbound call
(0-based, in program order) to the text it returns or the exception it
raises.
-/

namespace NewsPulse

/-- Python slice `s[:n]`: the first `n` code points of `s`. -/
def py_slice (s : String) (n : Nat) : String :=
  ⟨s.data.take n⟩

/-- Python strip with no argument: whitespace removed from both ends,
modelled structurally over the code points. -/
def py_strip (s : String) : String :=
  ⟨(((s.data.dropWhile Char.isWhitespace).reverse.dropWhile Char.isWhitespace).reverse)⟩

/-! ## Content Fetcher (`fetch_full_article`, app.py lines 27-42) -/

/-- An HTML container candidate as BeautifulSoup sees it; `cleanText` is the
result of get_text with strip after extracting every
script/style/aside/figure sub-element. -/
structure Element where
  cleanText : String
deriving DecidableEq, Repr

/-- The parsed page, abstracted to the three candidate containers probed by
the source: the div.storyDetail selector, the article tag selector, and the
div with class article-body. -/
structure Soup where
  storyDetail : Option Element
  articleTag : Option Element
  articleBodyClass : Option Element
deriving DecidableEq, Repr

/-- One behaviour of the HTTP transport for a given URL: `requests.get`
raises (network error), or a response arrives whose `raise_for_status()`
raises on non-2xx (`httpError = some msg`) or succeeds (`httpError = none`)
with a parsed body. -/
inductive FetchOutcome where
  | netError (msg : String)
  | response (httpError : Option String) (soup : Soup)
deriving DecidableEq, Repr

/-- Evaluation of the or-chain on line 34 of app.py: first match among
div.storyDetail, the article tag, and the div with class article-body. -/
def selectBody (s : Soup) : Option Element :=
  s.storyDetail <|> s.articleTag <|> s.articleBodyClass

/-- Body of the `try` block of `fetch_full_article` (app.py lines 28-40):
`.error` is a raised exception that the surrounding handler will catch. -/
def fetchAttempt : FetchOutcome → Except String String
  | .netError msg => .error msg
  | .response (some e) _ => .error e
  | .response none soup =>
      match selectBody soup with
      | some el => .ok el.cleanText
      | none => .ok "Full article content not available."

/-- Embedding of `fetch_full_article` (app.py lines 27-42): the broad
except clause turns any raised exception into the error string made of the
fixed prefix followed by the exception text, so the function is total. -/
def fetch_full_article (o : FetchOutcome) : String :=
  match fetchAttempt o with
  | .ok s => s
  | .error e => "Error fetching full article: " ++ e

/-! ## Answer Synthesizer (`ask_question`, app.py lines 92-150) -/

/-- An article as consumed by `ask_question`: the url, title and description
fields read with empty-string defaults; the description additionally passes
through a Python or-with-empty-string, which maps a None description to the
empty string (modelled by `Option`). -/
structure Article where
  url : String
  title : String
  description : Option String
deriving DecidableEq, Repr

/-- Value of desc in `ask_question` line 95: None becomes the empty string. -/
def article_desc (a : Article) : String :=
  a.description.getD ""

/-- Context truncation, app.py line 99: the first 4000 code points plus an
ellipsis when the text is longer than 4000 code points, else unchanged. -/
def assemble_context (full_content : String) : String :=
  if full_content.length > 4000 then py_slice full_content 4000 ++ "..." else full_content

/-- Step 1 of `ask_question` (app.py line 98) followed by the truncation of
line 99: fetch the body when the url is truthy, else fall back to the title
and description joined by a blank line. -/
def article_context (fetchO : String → FetchOutcome) (a : Article) : String :=
  assemble_context
    (if a.url ≠ "" then fetch_full_article (fetchO a.url) else a.title ++ "\n\n" ++ article_desc a)

/-- URLs passed to the Content Fetcher during one `ask_question` run: line 98
calls it exactly when `url` is non-empty. -/
def article_fetches (a : Article) : List String :=
  if a.url ≠ "" then [a.url] else []

/-- The extraction prompt (app.py lines 102-108). -/
def extraction_prompt (context question : String) : String :=
  "Article Content: " ++ context ++ "\n\nQuestion: " ++ question ++
  "\n\nExtract and return ONLY the direct answer from the article if it\x27s explicitly mentioned or clearly inferable (e.g., full list if asked for team members). If no complete answer is found, respond exactly with: \"NOT_FOUND\".\n\nBe concise—no explanations or additions."

/-- The reasoning prompt (app.py lines 124-128). -/
def reasoned_prompt (title desc question : String) : String :=
  "Article Info (title/desc): " ++ title ++ "\n" ++ desc ++ "\n\nQuestion: " ++ question ++
  "\n\nThe article doesn\x27t have a complete direct answer, but use the provided info (e.g., mentioned players, context like \x27under pressure\x27 or competition) combined with your general knowledge of the topic (e.g., official squads, recent form, series previews) to provide a concise, accurate response. Structure it helpfully (e.g., numbered list for teams, with notes). Do not ask for more info—reason and answer based on this."

/-- The fallback prompt (app.py line 142): the reasoning prompt with one
extra line hinting at canonical sources. -/
def search_fallback_prompt (title desc question : String) : String :=
  reasoned_prompt title desc question ++ "\nIf still unclear, briefly note sources like BCCI/ESPN."

/-- Which of the three `generate_content` call sites issued a completion
request: the extraction call (line 111), the reasoning call (line 131) or the
fallback call (line 143). -/
inductive Stage where
  | extraction
  | reasoning
  | fallback
deriving DecidableEq, Repr

/-- Observable outbound behaviour of one `ask_question` run: the URLs handed
to the Content Fetcher and the completion calls in order, each tagged with
its call site and carrying the prompt it sent. -/
structure RunLog where
  fetches : List String
  calls : List (Stage × String)
deriving DecidableEq, Repr

/-- Steps 3 and 4 of `ask_question` (app.py lines 123-150), entered by
falling through step 2.  The reasoning call is the second outbound completion
call (index 1) and the fallback call the third (index 2); when both raise,
the returned text embeds the reasoning-stage exception `e` (line 150). -/
def stages34 (svc : Nat → Except String String) (ep rp sp : String)
    (fetches : List String) : Except String (String × RunLog) :=
  match svc 1 with
  | .ok reasoned => .ok (reasoned, ⟨fetches, [(Stage.extraction, ep), (Stage.reasoning, rp)]⟩)
  | .error e =>
      match svc 2 with
      | .ok fb =>
          .ok (fb, ⟨fetches, [(Stage.extraction, ep), (Stage.reasoning, rp), (Stage.fallback, sp)]⟩)
      | .error _ =>
          .ok ("Error generating response: " ++ e ++ ". Please rephrase your question.",
            ⟨fetches, [(Stage.extraction, ep), (Stage.reasoning, rp), (Stage.fallback, sp)]⟩)

/-- Embedding of `ask_question` (app.py lines 92-150).  `fetchO` gives the
HTTP behaviour per URL and `svc` the completion-service behaviour per call
index.  The codomain is `Except`: an uncaught exception would surface as
`.error`, a `return` as `.ok`.  Step 2 tries the extraction call; on a
non-sentinel response longer than 10 characters (after `.strip()`) it
returns with the attribution prefix, otherwise (sentinel, short output, or a
raised exception caught on line 120) control falls through to steps 3-4. -/
def askQuestion (fetchO : String → FetchOutcome) (svc : Nat → Except String String)
    (article : Article) (question : String) : Except String (String × RunLog) :=
  let context := article_context fetchO article
  let ep := extraction_prompt context question
  let rp := reasoned_prompt article.title (article_desc article) question
  let sp := search_fallback_prompt article.title (article_desc article) question
  match svc 0 with
  | .ok t =>
      let extracted := py_strip t
      if extracted ≠ "NOT_FOUND" ∧ extracted.length > 10 then
        .ok ("From the article: " ++ extracted, ⟨article_fetches article, [(Stage.extraction, ep)]⟩)
      else stages34 svc ep rp sp (article_fetches article)
  | .error _ => stages34 svc ep rp sp (article_fetches article)

/-! ## Conversation Store (`db.py` lines 7-10 and 129-150)

The underlying store is SQLite.  `get_connection` (db.py lines 7-10) runs
`sqlite3.connect(DB_PATH, check_same_thread=False)` and sets the row factory;
it never issues `PRAGMA foreign_keys = ON`, and SQLite leaves foreign-key
enforcement OFF by default, so declared foreign keys are not checked on this
connection.  Modelled from the spec: `schema.sql` is not under `src/`; per
spec section 6 it declares tables `conversations(id, user_id, article_url,
created_at)` and `messages(id, conversation_id, role, content, created_at)`
with a foreign key from `messages.conversation_id` to `conversations.id`.
Row ids are SQLite rowids, assigned sequentially from 1. -/

/-- A row of the `conversations` table. -/
structure ConversationRow where
  id : Nat
  user_id : Nat
  article_url : String
deriving DecidableEq, Repr

/-- A row of the `messages` table. -/
structure MessageRow where
  id : Nat
  conversation_id : Nat
  role : String
  content : String
deriving DecidableEq, Repr

/-- The persistent state of the two conversation tables, with the next
rowid of each (SQLite rowids start at 1). -/
structure Store where
  conversations : List ConversationRow
  messages : List MessageRow
  next_conversation_id : Nat
  next_message_id : Nat
deriving DecidableEq, Repr

/-- Whether the connections produced by `get_connection` enforce foreign
keys: `false`, because `get_connection` (db.py lines 7-10) never issues
`PRAGMA foreign_keys = ON` and SQLite defaults to OFF. -/
def foreign_keys_on : Bool := false

/-- Embedding of `create_conversation` (db.py lines 130-134): inserts a new
row unconditionally and returns `cur.lastrowid`. -/
def create_conversation (s : Store) (user_id : Nat) (article_url : String) : Nat × Store :=
  (s.next_conversation_id,
    { s with
      conversations := s.conversations ++ [⟨s.next_conversation_id, user_id, article_url⟩]
      next_conversation_id := s.next_conversation_id + 1 })

/-- Semantics of `INSERT INTO messages (conversation_id, role, content)
VALUES (?, ?, ?)` on a connection with the given foreign-key pragma: with
enforcement on, a dangling `conversation_id` raises
`sqlite3.IntegrityError`; with enforcement off the row is inserted
regardless. -/
def sqlite_insert_message (fk_on : Bool) (s : Store) (conversation_id : Nat)
    (role content : String) : Except String Store :=
  if fk_on && s.conversations.all (fun c => c.id != conversation_id) then
    .error "FOREIGN KEY constraint failed"
  else
    .ok { s with
          messages := s.messages ++ [⟨s.next_message_id, conversation_id, role, content⟩]
          next_message_id := s.next_message_id + 1 }

/-- Embedding of `save_message` (db.py lines 136-139): a single INSERT on a
`get_connection` connection; any `sqlite3` exception would propagate to the
caller (`.error`). -/
def save_message (s : Store) (conversation_id : Nat) (role content : String) :
    Except String Store :=
  sqlite_insert_message foreign_keys_on s conversation_id role content

/-! ## Session Orchestrator (`render_article_card` Send handler, app.py lines 327-350) -/

/-- Per-article session state touched by the Send handler: the in-memory
transcript for the article (role/content pairs, kept in the article_chats
session entry) and the conversation-id cache (the convo_map session dict,
modelled as an association list, most recent binding first). -/
structure Session where
  msgs : List (String × String)
  convo_map : List (String × Nat)
deriving DecidableEq, Repr

/-- The cache key convo_key (app.py line 330): the literal convo_ followed
by url_hash.  The source hashes the url with md5 and keeps 8 hex digits
purely to build a widget-unique key; the hash is modelled by the url
itself. -/
def convoKey (a : Article) : String :=
  "convo_" ++ a.url

/-- Resolution of the ask_question call under its try/except (app.py lines
339-342): a raised exception becomes the fixed Gemini-error prefix followed
by the exception text. -/
def answer_or_error (answerOp : Article → String → Except String String)
    (a : Article) (q : String) : String :=
  match answerOp a q with
  | .ok ans => ans
  | .error e => "Error calling Gemini: " ++ e

/-- Embedding of the Send handler (app.py lines 327-350).  The store
operations and the synthesizer are passed as `Except`-returning behaviours:
`createOp` for `db.create_conversation` (which has no handler of its own, so
its exceptions reach the handler's `except`), `saveOp` for `db.save_message`
and `answerOp` for `ask_question`.  Control flow:
append the user message to the transcript; look up the cached conversation
id; in a `try` block create the conversation when uncached (caching the new
id as soon as creation returns) and persist the user message, a raised
exception being demoted to a warning; synthesize the answer (its own
`try/except`); append it to the transcript; in a final `try` block persist
the assistant message only when a conversation id is in hand (`if convo_id:`
— SQLite rowids start at 1, so truthiness is presence).  Returns the updated
session (transcript and cache) and store. -/
def handle_question (createOp : Store → Nat → String → Except String (Nat × Store))
    (saveOp : Store → Nat → String → String → Except String Store)
    (answerOp : Article → String → Except String String)
    (sess : Session) (st : Store) (user_id : Nat) (article : Article) (user_q : String) :
    Session × Store :=
  let msgs1 := sess.msgs ++ [("user", user_q)]
  let key := convoKey article
  let r1 : Option Nat × List (String × Nat) × Store :=
    match sess.convo_map.lookup key with
    | some cid =>
        match saveOp st cid "user" user_q with
        | .ok st2 => (some cid, sess.convo_map, st2)
        | .error _ => (some cid, sess.convo_map, st)
    | none =>
        match createOp st user_id article.url with
        | .error _ => (none, sess.convo_map, st)
        | .ok (cid, st2) =>
            match saveOp st2 cid "user" user_q with
            | .ok st3 => (some cid, (key, cid) :: sess.convo_map, st3)
            | .error _ => (some cid, (key, cid) :: sess.convo_map, st2)
  let ans := answer_or_error answerOp article user_q
  let msgs2 := msgs1 ++ [("assistant", ans)]
  let stOut :=
    match r1.1 with
    | some cid =>
        match saveOp r1.2.2 cid "assistant" ans with
        | .ok stx => stx
        | .error _ => r1.2.2
    | none => r1.2.2
  ({ msgs := msgs2, convo_map := r1.2.1 }, stOut)

/-- The real `db.create_conversation` as a handler behaviour: a plain INSERT
that does not raise in the model. -/
def create_conversation_op (s : Store) (user_id : Nat) (article_url : String) :
    Except String (Nat × Store) :=
  .ok (create_conversation s user_id article_url)

/-! ## Concrete test fixtures, used by the scenario runs below -/

/-- The article of the spec scenarios. -/
def article_xa : Article :=
  ⟨"https://x/a", "T", some "D"⟩

/-- Transport behaviour where every GET raises a network error. -/
def fetch_down : String → FetchOutcome :=
  fun _ => .netError "connection refused"

/-- Transport behaviour where every page is retrieved but no candidate
container matches. -/
def fetch_nobody : String → FetchOutcome :=
  fun _ => .response none ⟨none, none, none⟩

/-- Completion service returning a substantive direct answer on every
call. -/
def svc_direct : Nat → Except String String :=
  fun _ => .ok "The answer is forty-two"

/-- Completion service stubbed to return the sentinel first and a reasoned
answer afterwards. -/
def svc_c3 : Nat → Except String String :=
  fun n => if n = 0 then .ok "NOT_FOUND" else .ok "Reasoned answer."

/-- Completion service returning the sentinel first and then raising on
every later call. -/
def svc_fail_late : Nat → Except String String :=
  fun n => if n = 0 then .ok "NOT_FOUND" else .error "quota exceeded"

/-- Synthesizer behaviour returning a fixed answer. -/
def answer_ok : Article → String → Except String String :=
  fun _ _ => .ok "A."

/-- Store behaviour where conversation creation always raises. -/
def create_fail : Store → Nat → String → Except String (Nat × Store) :=
  fun _ _ _ => .error "disk I/O error"

end NewsPulse

namespace NewsPulse

/-! ## Helper lemmas -/

/-- Steps 3-4 always return: every branch of `stages34` is an `.ok`. -/
theorem stages34_total (svc : Nat → Except String String) (ep rp sp : String)
    (fetches : List String) :
    ∃ ans log, stages34 svc ep rp sp fetches = .ok (ans, log) := by
  unfold stages34
  cases h1 : svc 1 with
  | ok reasoned => exact ⟨_, _, rfl⟩
  | error e =>
    cases h2 : svc 2 with
    | ok fb => exact ⟨_, _, rfl⟩
    | error e2 => exact ⟨_, _, rfl⟩

/-- Every branch of `stages34` logs the given fetches and issues the
reasoning call exactly once and the extraction call exactly once. -/
theorem stages34_log (svc : Nat → Except String String) (ep rp sp : String)
    (fetches : List String) :
    ∃ ans log, stages34 svc ep rp sp fetches = .ok (ans, log) ∧
      log.fetches = fetches ∧
      (log.calls.filter (fun c => c.1 == Stage.reasoning)).length = 1 := by
  unfold stages34
  cases h1 : svc 1 with
  | ok reasoned => exact ⟨_, _, rfl, rfl, rfl⟩
  | error e =>
    cases h2 : svc 2 with
    | ok fb => exact ⟨_, _, rfl, rfl, rfl⟩
    | error e2 => exact ⟨_, _, rfl, rfl, rfl⟩

/-- `save_message` never raises on a `get_connection` connection: foreign
keys are unenforced, so the INSERT succeeds and appends one row. -/
theorem save_message_ok (s : Store) (cid : Nat) (role content : String) :
    save_message s cid role content =
      .ok { s with
            messages := s.messages ++ [⟨s.next_message_id, cid, role, content⟩]
            next_message_id := s.next_message_id + 1 } := by
  simp [save_message, sqlite_insert_message, foreign_keys_on]

/-- One Send-handler run with the real store operations when no conversation
id is cached: a conversation row is created and cached, then the user and
assistant messages are appended. -/
theorem handle_question_uncached (answerOp : Article → String → Except String String)
    (sess : Session) (st : Store) (uid : Nat) (a : Article) (q : String)
    (hnone : sess.convo_map.lookup (convoKey a) = none) :
    handle_question create_conversation_op save_message answerOp sess st uid a q =
      ({ msgs := sess.msgs ++ [("user", q), ("assistant", answer_or_error answerOp a q)],
         convo_map := (convoKey a, st.next_conversation_id) :: sess.convo_map },
       { conversations := st.conversations ++ [⟨st.next_conversation_id, uid, a.url⟩],
         messages := st.messages ++
           [⟨st.next_message_id, st.next_conversation_id, "user", q⟩,
            ⟨st.next_message_id + 1, st.next_conversation_id, "assistant",
              answer_or_error answerOp a q⟩],
         next_conversation_id := st.next_conversation_id + 1,
         next_message_id := st.next_message_id + 2 }) := by
  simp [handle_question, hnone, create_conversation_op, create_conversation, save_message_ok,
    List.append_assoc]

/-- One Send-handler run with the real store operations when a conversation
id is cached: no conversation row is created, the cache is unchanged, and the
user and assistant messages are appended. -/
theorem handle_question_cached (answerOp : Article → String → Except String String)
    (sess : Session) (st : Store) (uid : Nat) (a : Article) (q : String) (cid : Nat)
    (hsome : sess.convo_map.lookup (convoKey a) = some cid) :
    handle_question create_conversation_op save_message answerOp sess st uid a q =
      ({ msgs := sess.msgs ++ [("user", q), ("assistant", answer_or_error answerOp a q)],
         convo_map := sess.convo_map },
       { st with
         messages := st.messages ++
           [⟨st.next_message_id, cid, "user", q⟩,
            ⟨st.next_message_id + 1, cid, "assistant", answer_or_error answerOp a q⟩],
         next_message_id := st.next_message_id + 2 }) := by
  simp [handle_question, hsome, save_message_ok, List.append_assoc]

/-! ## Claim theorems -/

/-- C1: for every article and question and every behaviour of the completion
service and of the HTTP fetch — including any of them raising — `ask_question`
returns normally with a string: its embedding, whose codomain records an
uncaught exception as `.error`, produces `.ok` on every path. -/
theorem ask_question_never_raises (fetchO : String → FetchOutcome)
    (svc : Nat → Except String String) (a : Article) (q : String) :
    ∃ ans log, askQuestion fetchO svc a q = .ok (ans, log) := by
  cases h0 : svc 0 with
  | ok t =>
    simp only [askQuestion, h0]
    by_cases hc : py_strip t ≠ "NOT_FOUND" ∧ (py_strip t).length > 10
    · rw [if_pos hc]
      exact ⟨_, _, rfl⟩
    · rw [if_neg hc]
      exact stages34_total ..
  | error e =>
    simp only [askQuestion, h0]
    exact stages34_total ..

/-- C5: in context assembly, a body text longer than 4000 characters yields
exactly its first 4000 characters followed by the truncation marker, and a
body text of at most 4000 characters passes through unchanged. -/
theorem assemble_context_truncation :
    (∀ s : String, s.length > 4000 →
      assemble_context s = py_slice s 4000 ++ "..." ∧ (py_slice s 4000).length = 4000) ∧
    (∀ s : String, s.length ≤ 4000 → assemble_context s = s) := by
  constructor
  · intro s h
    refine ⟨by rw [assemble_context, if_pos h], ?_⟩
    show (s.data.take 4000).length = 4000
    rw [List.length_take]
    exact Nat.min_eq_left (Nat.le_of_lt h)
  · intro s h
    rw [assemble_context, if_neg (by omega)]

/-- Witness for C5 at a 4001-character string and at a short string. -/
theorem assemble_context_truncation_witness :
    assemble_context ⟨List.replicate 4001 'a'⟩ =
      py_slice ⟨List.replicate 4001 'a'⟩ 4000 ++ "..." ∧
    assemble_context "short" = "short" :=
  ⟨(assemble_context_truncation.1 ⟨List.replicate 4001 'a'⟩
      (by show 4000 < (List.replicate 4001 'a').length; rw [List.length_replicate]; omega)).1,
   assemble_context_truncation.2 "short" (by decide)⟩

/-- C2: whenever the extraction completion returns text whose stripped form
is not the sentinel and is longer than 10 characters, `ask_question` returns
that text behind the attribution prefix and the run makes exactly one
completion call — the extraction call; the reasoning and fallback calls never
happen. -/
theorem ask_question_direct_answer (fetchO : String → FetchOutcome)
    (svc : Nat → Except String String) (a : Article) (q t : String)
    (h0 : svc 0 = .ok t) (h1 : py_strip t ≠ "NOT_FOUND") (h2 : (py_strip t).length > 10) :
    askQuestion fetchO svc a q =
      .ok ("From the article: " ++ py_strip t,
        ⟨article_fetches a,
         [(Stage.extraction, extraction_prompt (article_context fetchO a) q)]⟩) := by
  simp only [askQuestion, h0]
  rw [if_pos ⟨h1, h2⟩]

/-- Witness for C2 at a concrete run with a substantive extraction answer. -/
theorem ask_question_direct_answer_witness :
    askQuestion fetch_down svc_direct article_xa "Q" =
      .ok ("From the article: " ++ py_strip "The answer is forty-two",
        ⟨article_fetches article_xa,
         [(Stage.extraction, extraction_prompt (article_context fetch_down article_xa) "Q")]⟩) :=
  ask_question_direct_answer fetch_down svc_direct article_xa "Q" "The answer is forty-two"
    rfl (by decide) (by decide)

/-- C3: whenever the extraction completion returns exactly the sentinel, the
reasoning call happens exactly once; and on the spec scenario — the article
at the fixed url with title T and description D, the question What happened?,
and the service stubbed to return the sentinel then the reasoned answer — the
run returns the reasoned answer after exactly the two logged completion
calls. -/
theorem ask_question_sentinel_escalates :
    (∀ (fetchO : String → FetchOutcome) (svc : Nat → Except String String)
        (a : Article) (q t : String), svc 0 = .ok t → py_strip t = "NOT_FOUND" →
      ∃ ans log, askQuestion fetchO svc a q = .ok (ans, log) ∧
        (log.calls.filter (fun c => c.1 == Stage.reasoning)).length = 1) ∧
    (∀ fetchO : String → FetchOutcome,
      askQuestion fetchO svc_c3 article_xa "What happened?" =
        .ok ("Reasoned answer.",
          ⟨["https://x/a"],
           [(Stage.extraction,
              extraction_prompt (article_context fetchO article_xa) "What happened?"),
            (Stage.reasoning, reasoned_prompt "T" "D" "What happened?")]⟩)) := by
  constructor
  · intro fetchO svc a q t h0 ht
    simp only [askQuestion, h0]
    rw [if_neg (by simp [ht])]
    obtain ⟨ans, log, he, _, hcount⟩ := stages34_log svc _ _ _ _
    exact ⟨ans, log, he, hcount⟩
  · intro fetchO
    rfl

/-- Witness for C3 with the stubbed service and an unreachable transport. -/
theorem ask_question_sentinel_escalates_witness :
    ∃ ans log, askQuestion fetch_down svc_c3 article_xa "What happened?" = .ok (ans, log) ∧
      (log.calls.filter (fun c => c.1 == Stage.reasoning)).length = 1 :=
  ask_question_sentinel_escalates.1 fetch_down svc_c3 article_xa "What happened?"
    "NOT_FOUND" rfl rfl

/-- C4: whenever control falls through the extraction stage and the
reasoning completion raises, the fallback call happens exactly once, and if
the fallback completion also raises the returned string is the final error
text, which contains the reasoning-stage exception message and the rephrase
instruction. -/
theorem ask_question_fallback_chain (fetchO : String → FetchOutcome)
    (svc : Nat → Except String String) (a : Article) (q e : String)
    (hreach : (∃ t, svc 0 = .ok t ∧ ¬(py_strip t ≠ "NOT_FOUND" ∧ (py_strip t).length > 10)) ∨
      (∃ e0, svc 0 = .error e0))
    (h1 : svc 1 = .error e) :
    ∃ ans log, askQuestion fetchO svc a q = .ok (ans, log) ∧
      (log.calls.filter (fun c => c.1 == Stage.fallback)).length = 1 ∧
      (∀ e2, svc 2 = .error e2 →
        ans = "Error generating response: " ++ e ++ ". Please rephrase your question." ∧
        ∃ pre post, ans = pre ++ e ++ post) := by
  have hmain : ∀ ep rp sp f, ∃ ans log, stages34 svc ep rp sp f = .ok (ans, log) ∧
      (log.calls.filter (fun c => c.1 == Stage.fallback)).length = 1 ∧
      (∀ e2, svc 2 = .error e2 →
        ans = "Error generating response: " ++ e ++ ". Please rephrase your question." ∧
        ∃ pre post, ans = pre ++ e ++ post) := by
    intro ep rp sp f
    unfold stages34
    rw [h1]
    cases h2 : svc 2 with
    | ok fb =>
      refine ⟨_, _, rfl, rfl, ?_⟩
      intro e2 he2
      exact Except.noConfusion he2
    | error e2 =>
      refine ⟨_, _, rfl, rfl, ?_⟩
      intro e2x _
      exact ⟨rfl, "Error generating response: ", ". Please rephrase your question.", rfl⟩
  rcases hreach with ⟨t, h0, hc⟩ | ⟨e0, h0⟩
  · simp only [askQuestion, h0]
    rw [if_neg hc]
    exact hmain _ _ _ _
  · simp only [askQuestion, h0]
    exact hmain _ _ _ _

/-- Witness for C4: sentinel, then the reasoning and fallback calls both
raise. -/
theorem ask_question_fallback_chain_witness :
    ∃ ans log, askQuestion fetch_down svc_fail_late article_xa "Q" = .ok (ans, log) ∧
      (log.calls.filter (fun c => c.1 == Stage.fallback)).length = 1 ∧
      (∀ e2, svc_fail_late 2 = .error e2 →
        ans = "Error generating response: " ++ "quota exceeded" ++
          ". Please rephrase your question." ∧
        ∃ pre post, ans = pre ++ "quota exceeded" ++ post) :=
  ask_question_fallback_chain fetch_down svc_fail_late article_xa "Q" "quota exceeded"
    (Or.inl ⟨"NOT_FOUND", rfl, by decide⟩) rfl

/-- C7: `fetch_full_article` is total and fail-soft: a network error or an
HTTP error status yields the human-readable error string built from the
fixed error prefix, a retrieved page with no matching candidate container
yields the fixed content-not-available sentinel, and the sentinel is distinct
from every possible error string. -/
theorem fetch_full_article_soft_fail :
    (∀ msg, fetch_full_article (.netError msg) = "Error fetching full article: " ++ msg) ∧
    (∀ e soup, fetch_full_article (.response (some e) soup) =
      "Error fetching full article: " ++ e) ∧
    (∀ soup, selectBody soup = none →
      fetch_full_article (.response none soup) = "Full article content not available.") ∧
    (∀ msg, "Full article content not available." ≠ "Error fetching full article: " ++ msg) := by
  refine ⟨fun msg => rfl, fun e soup => rfl, ?_, ?_⟩
  · intro soup h
    simp [fetch_full_article, fetchAttempt, h]
  · intro msg h
    have hdata : ("Full article content not available." : String).data =
        ("Error fetching full article: " : String).data ++ msg.data := by
      rw [h, String.data_append]
    have htake := congrArg
      (fun l => l.take ("Error fetching full article: " : String).data.length) hdata
    simp only [List.take_left] at htake
    exact absurd htake (by decide)

/-- Witness for C7: a concrete unreachable URL yields the error string and a
concrete container-free page yields the sentinel. -/
theorem fetch_full_article_soft_fail_witness :
    fetch_full_article (.netError "connection refused") =
      "Error fetching full article: " ++ "connection refused" ∧
    fetch_full_article (.response none ⟨none, none, none⟩) =
      "Full article content not available." ∧
    "Full article content not available." ≠ "Error fetching full article: " ++ "down" :=
  ⟨fetch_full_article_soft_fail.1 "connection refused",
   fetch_full_article_soft_fail.2.2.1 ⟨none, none, none⟩ rfl,
   fetch_full_article_soft_fail.2.2.2 "down"⟩

/-- C6 counterexample: on an article with a non-empty url whose page is
retrieved but has no matching candidate container — the body is unavailable —
the context placed in the extraction prompt is the fetcher sentinel, not
title then a blank line then description, so the fallback clause of the claim
fails on the code. -/
theorem ask_question_context_counterexample :
    article_xa.url ≠ "" ∧
    fetch_full_article (fetch_nobody article_xa.url) = "Full article content not available." ∧
    askQuestion fetch_nobody svc_direct article_xa "Q" =
      .ok ("From the article: " ++ py_strip "The answer is forty-two",
        ⟨["https://x/a"],
         [(Stage.extraction, extraction_prompt "Full article content not available." "Q")]⟩) ∧
    extraction_prompt "Full article content not available." "Q" ≠
      extraction_prompt ("T" ++ "\n\n" ++ "D") "Q" ∧
    article_context fetch_nobody article_xa ≠
      article_xa.title ++ "\n\n" ++ article_desc article_xa := by
  exact ⟨by decide, rfl, rfl, by decide, by decide⟩

/-- C6 amended: `ask_question` calls the Content Fetcher exactly when the
article url is non-empty; with an empty url the assembled context is title,
a blank line and description (truncated at 4000); with a non-empty url the
context is whatever string the fetcher returned (truncated at 4000), even
when the fetch failed or yielded no content — the error or sentinel string
becomes the context instead of a fallback to title and description. -/
theorem ask_question_context_amended (fetchO : String → FetchOutcome)
    (svc : Nat → Except String String) (a : Article) (q : String) :
    ∃ ans log, askQuestion fetchO svc a q = .ok (ans, log) ∧
      log.fetches = (if a.url = "" then [] else [a.url]) ∧
      article_context fetchO a =
        (if a.url = "" then assemble_context (a.title ++ "\n\n" ++ article_desc a)
         else assemble_context (fetch_full_article (fetchO a.url))) := by
  have hfetches : article_fetches a = (if a.url = "" then [] else [a.url]) := by
    by_cases h : a.url = "" <;> simp [article_fetches, h]
  have hctx : article_context fetchO a =
      (if a.url = "" then assemble_context (a.title ++ "\n\n" ++ article_desc a)
       else assemble_context (fetch_full_article (fetchO a.url))) := by
    by_cases h : a.url = "" <;> simp [article_context, h]
  cases h0 : svc 0 with
  | ok t =>
    simp only [askQuestion, h0]
    by_cases hc : py_strip t ≠ "NOT_FOUND" ∧ (py_strip t).length > 10
    · rw [if_pos hc]
      exact ⟨_, _, rfl, hfetches, hctx⟩
    · rw [if_neg hc]
      obtain ⟨ans, log, he, hf, _⟩ := stages34_log svc _ _ _ (article_fetches a)
      exact ⟨ans, log, he, by rw [hf, hfetches], hctx⟩
  | error e =>
    simp only [askQuestion, h0]
    obtain ⟨ans, log, he, hf, _⟩ := stages34_log svc _ _ _ (article_fetches a)
    exact ⟨ans, log, he, by rw [hf, hfetches], hctx⟩

/-- C8 counterexample: with an empty conversations table — so id 999
identifies no conversation — `save_message` returns normally and writes the
message row, instead of failing with a store error and writing nothing:
`get_connection` never turns on foreign-key enforcement, which SQLite leaves
off by default. -/
theorem save_message_dangling_counterexample :
    (Store.mk [] [] 1 1).conversations.all (fun c => c.id != 999) = true ∧
    save_message ⟨[], [], 1, 1⟩ 999 "user" "hello" =
      .ok ⟨[], [⟨1, 999, "user", "hello"⟩], 1, 2⟩ :=
  ⟨rfl, rfl⟩

/-- C8 amended: for every conversation id that identifies no existing
conversation row, `save_message` returns normally anyway and appends exactly
the one message row, because the connection never enables foreign-key
enforcement. -/
theorem save_message_dangling_amended (s : Store) (cid : Nat) (role content : String)
    (_h : s.conversations.all (fun c => c.id != cid) = true) :
    save_message s cid role content =
      .ok { s with
            messages := s.messages ++ [⟨s.next_message_id, cid, role, content⟩]
            next_message_id := s.next_message_id + 1 } :=
  save_message_ok s cid role content

/-- Witness for the amended C8 at a concrete dangling conversation id. -/
theorem save_message_dangling_amended_witness :
    save_message ⟨[], [], 5, 7⟩ 999 "assistant" "hi" =
      .ok ⟨[], [⟨7, 999, "assistant", "hi"⟩], 5, 8⟩ := by
  exact save_message_dangling_amended ⟨[], [], 5, 7⟩ 999 "assistant" "hi" (by decide)

/-- C9: two sequential questions on the same article in one session, with
the real store operations, create exactly one conversation row (the cache is
consulted before creating) and exactly four message rows — a user and an
assistant message per question, all four in the one new conversation. -/
theorem two_questions_single_conversation
    (answerOp : Article → String → Except String String)
    (sess : Session) (st : Store) (uid : Nat) (a : Article) (q1 q2 : String)
    (hnone : sess.convo_map.lookup (convoKey a) = none) :
    (handle_question create_conversation_op save_message answerOp
      (handle_question create_conversation_op save_message answerOp sess st uid a q1).1
      (handle_question create_conversation_op save_message answerOp sess st uid a q1).2
      uid a q2).2.conversations =
        st.conversations ++ [⟨st.next_conversation_id, uid, a.url⟩] ∧
    (handle_question create_conversation_op save_message answerOp
      (handle_question create_conversation_op save_message answerOp sess st uid a q1).1
      (handle_question create_conversation_op save_message answerOp sess st uid a q1).2
      uid a q2).2.messages =
        st.messages ++
          [⟨st.next_message_id, st.next_conversation_id, "user", q1⟩,
           ⟨st.next_message_id + 1, st.next_conversation_id, "assistant",
             answer_or_error answerOp a q1⟩,
           ⟨st.next_message_id + 2, st.next_conversation_id, "user", q2⟩,
           ⟨st.next_message_id + 3, st.next_conversation_id, "assistant",
             answer_or_error answerOp a q2⟩] := by
  rw [handle_question_uncached answerOp sess st uid a q1 hnone]
  rw [handle_question_cached answerOp _ _ uid a q2 st.next_conversation_id
    (by simp [List.lookup])]
  simp [List.append_assoc]

/-- Witness for C9: a fresh session and store, two concrete questions. -/
theorem two_questions_single_conversation_witness :
    (handle_question create_conversation_op save_message answer_ok
      (handle_question create_conversation_op save_message answer_ok
        ⟨[], []⟩ ⟨[], [], 1, 1⟩ 7 article_xa "q1").1
      (handle_question create_conversation_op save_message answer_ok
        ⟨[], []⟩ ⟨[], [], 1, 1⟩ 7 article_xa "q1").2
      7 article_xa "q2").2.conversations = [⟨1, 7, "https://x/a"⟩] ∧
    (handle_question create_conversation_op save_message answer_ok
      (handle_question create_conversation_op save_message answer_ok
        ⟨[], []⟩ ⟨[], [], 1, 1⟩ 7 article_xa "q1").1
      (handle_question create_conversation_op save_message answer_ok
        ⟨[], []⟩ ⟨[], [], 1, 1⟩ 7 article_xa "q1").2
      7 article_xa "q2").2.messages =
        [⟨1, 1, "user", "q1"⟩, ⟨2, 1, "assistant", "A."⟩,
         ⟨3, 1, "user", "q2"⟩, ⟨4, 1, "assistant", "A."⟩] := by
  exact two_questions_single_conversation answer_ok ⟨[], []⟩ ⟨[], [], 1, 1⟩ 7 article_xa
    "q1" "q2" rfl

/-- C10: when no conversation id is cached and conversation creation raises,
the store is returned untouched — neither the user nor the assistant message
row is persisted and no conversation row appears — while the in-memory
transcript still gains both the user message and the assistant answer and is
returned for display, with the cache unchanged. -/
theorem create_failure_keeps_store
    (createOp : Store → Nat → String → Except String (Nat × Store))
    (saveOp : Store → Nat → String → String → Except String Store)
    (answerOp : Article → String → Except String String)
    (sess : Session) (st : Store) (uid : Nat) (a : Article) (q e : String)
    (hnone : sess.convo_map.lookup (convoKey a) = none)
    (hfail : createOp st uid a.url = .error e) :
    handle_question createOp saveOp answerOp sess st uid a q =
      ({ msgs := sess.msgs ++ [("user", q), ("assistant", answer_or_error answerOp a q)],
         convo_map := sess.convo_map }, st) := by
  simp [handle_question, hnone, hfail, List.append_assoc]

/-- Witness for C10: concrete session, store and failing creation. -/
theorem create_failure_keeps_store_witness :
    handle_question create_fail save_message answer_ok ⟨[], []⟩ ⟨[], [], 1, 1⟩ 7 article_xa "q" =
      ({ msgs := [("user", "q"), ("assistant", "A.")], convo_map := [] },
       (⟨[], [], 1, 1⟩ : Store)) := by
  exact create_failure_keeps_store create_fail save_message answer_ok ⟨[], []⟩ ⟨[], [], 1, 1⟩
    7 article_xa "q" "disk I/O error" rfl rfl

end NewsPulse
